import Mathlib

/-!
Verification of the pet order service (`pet_order_service.py`).

The order service coordinates purchases across two inventory stores: it
resolves an available pet (three selection policies), deletes the chosen pet
from the winning store, and records a transaction in a ledger.  This file is a
shallow embedding of that service: each inventory store is modelled by the
responses it would give to the three HTTP calls the order service issues, the
ledger write is modelled by the list of records the handler appends, and
Python-level value semantics (truthiness, `isinstance`, `==` across `bool` and
`int`) are made explicit on a small universe of JSON field values.
-/

namespace PetOrder

/-- Universe of JSON field values as the Python handler sees them.  `none` is
Python `None` (a JSON `null`); `other` stands for any remaining value (list,
object, float) — the handler only ever applies `isinstance` checks to those,
never truthiness or equality, so one constructor suffices. -/
inductive PyVal where
  | none
  | int (n : Int)
  | bool (b : Bool)
  | str (s : String)
  | other
deriving DecidableEq

/-- Python truthiness of a field value (`other` stands for values whose
truthiness the order service never consults). -/
def pyTruthy : PyVal → Bool
  | PyVal.none => false
  | PyVal.int n => n != 0
  | PyVal.bool b => b
  | PyVal.str s => s != ""
  | PyVal.other => true

/-- Python `isinstance(v, int)`: booleans are a subclass of `int`. -/
def isInstInt : PyVal → Bool
  | PyVal.int _ => true
  | PyVal.bool _ => true
  | _ => false

/-- Python `isinstance(v, str)`. -/
def isInstStr : PyVal → Bool
  | PyVal.str _ => true
  | _ => false

/-- Python `v == n` for an integer literal `n`: `True == 1` and `False == 0`
hold, strings never equal integers. -/
def pyEqInt (v : PyVal) (n : Int) : Bool :=
  match v with
  | PyVal.int m => m == n
  | PyVal.bool b => (if b then (1 : Int) else 0) == n
  | _ => false

/-- Python `s == v` comparing a string `s` with a field value `v`. -/
def pyEqStr (s : String) (v : PyVal) : Bool :=
  match v with
  | PyVal.str t => s == t
  | _ => false

/-- Lower-cased ASCII letter, embedding Python `str.lower` per character (the
pet-type names exchanged with the stores are ASCII). -/
def lowerChar (c : Char) : Char :=
  if 'A' ≤ c && c ≤ 'Z' then Char.ofNat (c.toNat + 32) else c

/-- Embedding of Python `str.lower`. -/
def pyLower (s : String) : String := String.mk (s.data.map lowerChar)

/-- ASCII whitespace as Python `str.strip` and `int` treat it. -/
def isSpaceChar (c : Char) : Bool :=
  c == ' ' || c == '\t' || c == '\n' || c == '\r' || c == '\x0b' || c == '\x0c'

/-- Embedding of Python `str.strip()`: whitespace removed from both ends. -/
def pyStrip (s : String) : String :=
  String.mk (((s.data.dropWhile isSpaceChar).reverse.dropWhile isSpaceChar).reverse)

/-- One pet record as listed by a store (`GET /pet-types/{id}/pets`). -/
structure Pet where
  name : String
  birthdate : String
  picture : String
deriving DecidableEq

/-- One pet-type record as listed by a store (`GET /pet-types`); the order
service reads only the `id` and `type` fields, so the enrichment fields are
omitted.  Ids are MongoDB ObjectId strings. -/
structure PetType where
  id : String
  type : String
deriving DecidableEq

/-- Observable behaviour of one inventory store, as the three HTTP calls the
order service issues would see it.  `Option.none` models an I/O failure or a
non-success status; `deleteStatus` gives the status code of the DELETE call
(`Option.none` again an I/O failure). -/
structure StoreEnv where
  petTypes : Option (List PetType)
  pets : String → Option (List Pet)
  deleteStatus : String → String → Option Nat

/-- The two configured stores (`PET_STORE_1_URL`, `PET_STORE_2_URL`). -/
structure Env where
  store1 : StoreEnv
  store2 : StoreEnv

/-- Store environment reached through a store URL, identifying URLs with the
store number they are configured for (1 or 2). -/
def Env.storeAt (env : Env) : Nat → StoreEnv
  | 2 => env.store2
  | _ => env.store1

/-- Well-formedness of a store: listed pet-type ids are ObjectId strings and
hence never empty. -/
def StoreEnv.wf (s : StoreEnv) : Prop :=
  ∀ l, s.petTypes = Option.some l → ∀ t ∈ l, t.id ≠ ""

/-- Well-formedness of the configured pair of stores. -/
def Env.wf (env : Env) : Prop :=
  env.store1.wf ∧ env.store2.wf

/-- Embedding of `get_pet_type_id`: list the store's pet types and return the
id of the first whose type name matches case-insensitively; any I/O failure or
non-200 response yields `None`. -/
def get_pet_type_id (pet_type_name : String) (store : StoreEnv) : Option String :=
  match store.petTypes with
  | Option.none => Option.none
  | Option.some pet_types =>
      (pet_types.find? (fun t => pyLower t.type == pyLower pet_type_name)).map (fun t => t.id)

/-- Embedding of `get_pets_of_type`: list a type's pets; any I/O failure or
non-200 response yields the empty list. -/
def get_pets_of_type (pet_type_id : String) (store : StoreEnv) : List Pet :=
  (store.pets pet_type_id).getD []

/-- Embedding of `delete_pet_from_store`: the removal is confirmed exactly
when the DELETE call returns status 204; an I/O failure counts as not
confirmed. -/
def delete_pet_from_store (pet_type_id : String) (pet_name : String) (store : StoreEnv) : Bool :=
  store.deleteStatus pet_type_id pet_name == Option.some 204

/-- Result dictionary of `find_available_pet`: the chosen pet, the `store`
entry (the caller-supplied selector in policies 1–2, the store number in
policy 3), the resolved pet-type id, and the store URL the removal must be
issued against (as the store number it addresses). -/
structure FoundPet where
  pet : Pet
  store : PyVal
  pet_type_id : String
  store_url : Nat
deriving DecidableEq

/-- Embedding of the `store_urls.get(store)` dictionary lookup: Python dict
lookup compares keys with `==`, so `True` retrieves the entry keyed 1. -/
def storeUrlsGet (env : Env) (store : PyVal) : Option (Nat × StoreEnv) :=
  if pyEqInt store 1 then Option.some (1, env.store1)
  else if pyEqInt store 2 then Option.some (2, env.store2)
  else Option.none

/-- Candidates one store contributes to the any-store pool (the body of the
`for store_id, store_url in store_urls.items()` loop in case 3 of
`find_available_pet`): nothing when the type does not resolve or resolves to a
falsy (empty) id, else that type's pets tagged with the store number. -/
def collectCandidates (pet_type : String) (sid : Nat) (senv : StoreEnv) : List FoundPet :=
  match get_pet_type_id pet_type senv with
  | Option.none => []
  | Option.some ptid =>
      if ptid == "" then []
      else (get_pets_of_type ptid senv).map (fun p =>
        { pet := p, store := PyVal.int sid, pet_type_id := ptid, store_url := sid })

/-- Pool of available pets built by case 3 of `find_available_pet`: store 1's
contribution followed by store 2's. -/
def case3Candidates (pet_type : String) (env : Env) : List FoundPet :=
  collectCandidates pet_type 1 env.store1 ++ collectCandidates pet_type 2 env.store2

/-- Embedding of `find_available_pet`.  The branch guards are Python
truthiness tests on the raw field values; `rand` stands for the index drawn by
`random.choice` (taken modulo the candidate list's length, and unused on the
deterministic path).  An empty candidate list yields `None` exactly as the
`if pets:` / `if available_pets:` guards do. -/
def find_available_pet (pet_type : String) (store pet_name : PyVal) (env : Env) (rand : Nat) :
    Option FoundPet :=
  if pyTruthy store && pyTruthy pet_name then
    match storeUrlsGet env store with
    | Option.none => Option.none
    | Option.some (sid, senv) =>
        match get_pet_type_id pet_type senv with
        | Option.none => Option.none
        | Option.some ptid =>
            if ptid == "" then Option.none
            else
              ((get_pets_of_type ptid senv).find? (fun p => pyEqStr p.name pet_name)).map
                (fun p => { pet := p, store := store, pet_type_id := ptid, store_url := sid })
  else if pyTruthy store && !pyTruthy pet_name then
    match storeUrlsGet env store with
    | Option.none => Option.none
    | Option.some (sid, senv) =>
        match get_pet_type_id pet_type senv with
        | Option.none => Option.none
        | Option.some ptid =>
            if ptid == "" then Option.none
            else
              let pets := get_pets_of_type ptid senv
              (pets[rand % pets.length]?).map
                (fun p => { pet := p, store := store, pet_type_id := ptid, store_url := sid })
  else
    let pool := case3Candidates pet_type env
    pool[rand % pool.length]?

/-- Spec-worded candidate pool for the no-constraint policy (§4.1 policy 3):
for one configured store, the pets of the type whose name matches the request
case-insensitively, each tagged with its originating store; an unreachable
store or an unresolved type contributes nothing. -/
def specStoreCandidates (pet_type : String) (sid : Nat) (senv : StoreEnv) : List FoundPet :=
  match senv.petTypes with
  | Option.none => []
  | Option.some types =>
      match types.find? (fun t => pyLower t.type == pyLower pet_type) with
      | Option.none => []
      | Option.some t =>
          (get_pets_of_type t.id senv).map (fun p =>
            { pet := p, store := PyVal.int sid, pet_type_id := t.id, store_url := sid })

/-- Spec-worded pooled candidate set: the concatenation of every configured
store's matching pets, each tagged with its originating store. -/
def specPool (pet_type : String) (env : Env) : List FoundPet :=
  specStoreCandidates pet_type 1 env.store1 ++ specStoreCandidates pet_type 2 env.store2

/-- Transaction record as written to the ledger by `post_purchase`: the
`store` entry is the raw value from the resolver result (an integer, or the
caller's boolean when one was supplied). -/
structure Transaction where
  purchaser : String
  petType : String
  store : PyVal
  purchaseId : String
deriving DecidableEq

/-- Parsed JSON body of a purchase request; `Option.none` marks an absent
key (so `Option.some PyVal.none` is a key present with value `null`). -/
structure Body where
  purchaser : Option PyVal
  petType : Option PyVal
  store : Option PyVal
  petName : Option PyVal

/-- Incoming purchase request: whether its content type is JSON, and the
result of `request.get_json(silent=True)` (`Option.none` when the body does
not parse). -/
structure PurchaseRequest where
  is_json : Bool
  body : Option Body

/-- Observable outcome of one `POST /purchases` call: HTTP status, the error
message if any, whether the resolver was invoked, the delete call issued (type
id, pet name, store URL) if any, and the transaction records appended to the
ledger. -/
structure PurchaseResponse where
  status : Nat
  errMsg : Option String
  resolverCalled : Bool
  deleteCall : Option (String × String × Nat)
  ledgerWrites : List Transaction
deriving DecidableEq

/-- Error reply issued before the resolver is consulted: no store contact, no
delete, no ledger write. -/
def replyErr (status : Nat) (msg : String) : PurchaseResponse :=
  { status := status, errMsg := Option.some msg, resolverCalled := false,
    deleteCall := Option.none, ledgerWrites := [] }

/-- Shape check the handler applies to `purchaser` and `pet-type`:
`key in data and isinstance(data[key], str)`. -/
def strFieldOk : Option PyVal → Bool
  | Option.some (PyVal.str _) => true
  | _ => false

/-- Combined validation predicate of `post_purchase` (the four `Malformed
data` gates after the body parses): purchaser and pet-type present as strings,
store (when present) an integer equal to 1 or 2, pet-name (when present) a
string, and a truthy pet-name only together with a store. -/
def validBody (data : Body) : Bool :=
  strFieldOk data.purchaser && strFieldOk data.petType &&
  (let store := data.store.getD PyVal.none
   let pet_name := data.petName.getD PyVal.none
   !(store != PyVal.none && !isInstInt store) &&
   !(pet_name != PyVal.none && !isInstStr pet_name) &&
   !(store != PyVal.none && !(pyEqInt store 1 || pyEqInt store 2)) &&
   !(pyTruthy pet_name && store == PyVal.none))

/-- Embedding of the `POST /purchases` handler `post_purchase`.  `rand` is the
index `random.choice` would draw during resolution and `uuid` the generated
purchase identifier; the ledger insert itself is modelled as always
succeeding.  The checks appear in source order: content type, body parse, the
validation gates, resolution, removal, ledger write. -/
def post_purchase (req : PurchaseRequest) (env : Env) (rand : Nat) (uuid : String) :
    PurchaseResponse :=
  if !req.is_json then replyErr 415 "Expected application/json media type"
  else
    match req.body with
    | Option.none => replyErr 400 "Malformed data"
    | Option.some data =>
        match data.purchaser, data.petType with
        | Option.some (PyVal.str purchaser0), Option.some (PyVal.str pet_type0) =>
            let purchaser := pyStrip purchaser0
            let pet_type := pyStrip pet_type0
            let store := data.store.getD PyVal.none
            let pet_name := data.petName.getD PyVal.none
            if store != PyVal.none && !isInstInt store then replyErr 400 "Malformed data"
            else if pet_name != PyVal.none && !isInstStr pet_name then replyErr 400 "Malformed data"
            else if store != PyVal.none && !(pyEqInt store 1 || pyEqInt store 2) then
              replyErr 400 "Malformed data"
            else if pyTruthy pet_name && store == PyVal.none then replyErr 400 "Malformed data"
            else
              match find_available_pet pet_type store pet_name env rand with
              | Option.none =>
                  { status := 400, errMsg := Option.some "No pet of this type is available",
                    resolverCalled := true, deleteCall := Option.none, ledgerWrites := [] }
              | Option.some result =>
                  if !delete_pet_from_store result.pet_type_id result.pet.name
                      (env.storeAt result.store_url) then
                    { status := 500, errMsg := Option.some "Failed to remove pet from store",
                      resolverCalled := true,
                      deleteCall := Option.some (result.pet_type_id, result.pet.name, result.store_url),
                      ledgerWrites := [] }
                  else
                    { status := 201, errMsg := Option.none, resolverCalled := true,
                      deleteCall := Option.some (result.pet_type_id, result.pet.name, result.store_url),
                      ledgerWrites := [{ purchaser := purchaser, petType := pet_type,
                                         store := result.store, purchaseId := uuid }] }
        | _, _ => replyErr 400 "Malformed data"

/-- Shared secret the `OwnerPC` header must equal. -/
def SECRET : String := "LovesPetsL2M3n4"

/-- Filter keys the ledger query recognizes. -/
def recognizedKeys : List String := ["purchaser", "pet-type", "store", "purchase-id"]

/-- Value a Mongo query entry can hold after the handler's parsing: the store
filter becomes an integer when `int(value)` succeeds, every other case stays
text. -/
inductive QueryVal where
  | int (n : Int)
  | str (s : String)
deriving DecidableEq

/-- Tail of a Python integer literal after its first digit: digits with single
underscores strictly between digits. -/
def pyDigitsTail : List Char → Bool
  | [] => true
  | '_' :: c :: rest => c.isDigit && pyDigitsTail (c :: rest)
  | ['_'] => false
  | c :: rest => c.isDigit && pyDigitsTail rest

/-- Digit sequence accepted by Python `int`: non-empty, starting with a digit,
underscores only between digits. -/
def pyDigits : List Char → Bool
  | [] => false
  | c :: rest => c.isDigit && pyDigitsTail rest

/-- Numeric value of a digit list, underscores removed. -/
def digitsToNat (l : List Char) : Nat :=
  (l.filter (fun c => c != '_')).foldl (fun acc c => 10 * acc + (c.toNat - 48)) 0

/-- Embedding of Python `int(s)` on strings: surrounding whitespace stripped,
optional sign, then a digit sequence; `Option.none` models the `ValueError`
branch. -/
def pyIntOfString (s : String) : Option Int :=
  match (pyStrip s).data with
  | '+' :: rest => if pyDigits rest then Option.some (digitsToNat rest : Int) else Option.none
  | '-' :: rest => if pyDigits rest then Option.some (-(digitsToNat rest : Int)) else Option.none
  | cs => if pyDigits cs then Option.some (digitsToNat cs : Int) else Option.none

/-- Parsed query value for one recognized key: the `store` key goes through
`int(value)` with the text kept on `ValueError`, other keys stay text. -/
def queryValOf (key value : String) : QueryVal :=
  if key == "store" then
    match pyIntOfString value with
    | Option.some n => QueryVal.int n
    | Option.none => QueryVal.str value
  else QueryVal.str value

/-- First value a query-string key carries (`request.args.items()` yields the
first value of each key). -/
def firstVal (args : List (String × String)) (k : String) : Option String :=
  (args.find? (fun kv => kv.1 == k)).map (fun kv => kv.2)

/-- Mongo query dict the handler builds, as a map from keys to entries: each
recognized key occurring in the query string is bound to the parse of its
(first) value, every other key is unbound. -/
def buildQuery (args : List (String × String)) : String → Option QueryVal :=
  fun k =>
    if recognizedKeys.contains k then (firstVal args k).map (queryValOf k)
    else Option.none

/-- Value a stored transaction document carries under a recognized field
name. -/
def fieldVal (t : Transaction) : String → PyVal
  | "purchaser" => PyVal.str t.purchaser
  | "pet-type" => PyVal.str t.petType
  | "store" => t.store
  | "purchase-id" => PyVal.str t.purchaseId
  | _ => PyVal.none

/-- Mongo equality between a query entry and a stored value: integers match
integers, strings match strings, and no bridging across BSON types (in
particular an integer query never matches a stored boolean). -/
def mongoEqVal (q : QueryVal) (v : PyVal) : Bool :=
  match q, v with
  | QueryVal.int n, PyVal.int m => n == m
  | QueryVal.str s, PyVal.str t => s == t
  | _, _ => false

/-- Mongo document match for a query whose bound keys all lie among the
recognized field names: every bound key's entry must equal the stored field. -/
def mongoMatch (query : String → Option QueryVal) (t : Transaction) : Bool :=
  recognizedKeys.all (fun k =>
    match query k with
    | Option.some qv => mongoEqVal qv (fieldVal t k)
    | Option.none => true)

/-- Observable outcome of one `GET /transactions` call: HTTP status, the query
sent to the datastore (`Option.none` when no datastore read happened), and the
response body. -/
structure LedgerResponse where
  status : Nat
  queried : Option (List (Option QueryVal))
  body : Option (List Transaction)
deriving DecidableEq

/-- Embedding of the `GET /transactions` handler `get_transactions`: the
`OwnerPC` header must equal the shared secret exactly, else 401 with no
datastore read; otherwise the ledger is filtered by the built query.  The
`queried` trace records the query's bindings at the recognized keys. -/
def get_transactions (header : Option String) (args : List (String × String))
    (ledger : List Transaction) : LedgerResponse :=
  if header != Option.some SECRET then
    { status := 401, queried := Option.none, body := Option.none }
  else
    let query := buildQuery args
    { status := 200, queried := Option.some (recognizedKeys.map query),
      body := Option.some (ledger.filter (fun t => mongoMatch query t)) }

/-- Spec-worded ledger filter (§4.3): a plain equality match per supplied
recognized field, implicitly ANDed, with the store value compared as an
integer when it parses as one and as literal text otherwise; unrecognized
keys play no part. -/
def specMatches (args : List (String × String)) (t : Transaction) : Bool :=
  (match firstVal args "purchaser" with
   | Option.some v => t.purchaser == v
   | Option.none => true) &&
  (match firstVal args "pet-type" with
   | Option.some v => t.petType == v
   | Option.none => true) &&
  (match firstVal args "store" with
   | Option.some v =>
       (match pyIntOfString v with
        | Option.some n => t.store == PyVal.int n
        | Option.none => t.store == PyVal.str v)
   | Option.none => true) &&
  (match firstVal args "purchase-id" with
   | Option.some v => t.purchaseId == v
   | Option.none => true)

/-- Concrete store number 1 used for witnesses: one pet type "dog" with one
pet "Rex"; deletes confirm with 204. -/
def wStore1 : StoreEnv :=
  { petTypes := Option.some [{ id := "t1", type := "dog" }],
    pets := fun i =>
      if i == "t1" then
        Option.some [{ name := "Rex", birthdate := "NA", picture := "NA" }]
      else Option.none,
    deleteStatus := fun _ _ => Option.some 204 }

/-- Concrete store number 2 used for witnesses: one pet type "dog" with one
pet "Fido"; deletes confirm with 204. -/
def wStore2 : StoreEnv :=
  { petTypes := Option.some [{ id := "t2", type := "dog" }],
    pets := fun i =>
      if i == "t2" then
        Option.some [{ name := "Fido", birthdate := "NA", picture := "NA" }]
      else Option.none,
    deleteStatus := fun _ _ => Option.some 204 }

/-- Concrete pair of healthy stores for witnesses. -/
def wEnv : Env := { store1 := wStore1, store2 := wStore2 }

/-- Variant of the witness environment whose store 1 rejects every delete
with a 404. -/
def wEnvDeleteFails : Env :=
  { store1 := { wStore1 with deleteStatus := fun _ _ => Option.some 404 },
    store2 := wStore2 }

/-- Variant of the witness environment whose store 1 is unreachable (its type
listing fails). -/
def wEnvStore1Down : Env :=
  { store1 := { petTypes := Option.none, pets := fun _ => Option.none,
                deleteStatus := fun _ _ => Option.none },
    store2 := wStore2 }

/-- Well-formed purchase body used by witnesses: purchaser "Ana", pet type
"dog", store 1, no pet name. -/
def wBody : Body :=
  { purchaser := Option.some (PyVal.str "Ana"), petType := Option.some (PyVal.str "dog"),
    store := Option.some (PyVal.int 1), petName := Option.none }

/-- Purchase body whose purchaser is whitespace only (empty after
trimming). -/
def wBodyBlankPurchaser : Body :=
  { wBody with purchaser := Option.some (PyVal.str "   ") }

/-- Purchase body carrying an empty-string pet name and no store. -/
def wBodyEmptyPetName : Body :=
  { wBody with store := Option.none, petName := Option.some (PyVal.str "") }

/-- Purchase body whose store field is the JSON boolean `true`. -/
def wBodyBoolStore : Body :=
  { wBody with store := Option.some (PyVal.bool true) }

/-- Concrete two-record ledger used by witnesses. -/
def wLedger : List Transaction :=
  [{ purchaser := "Ana", petType := "dog", store := PyVal.int 2, purchaseId := "id-1" },
   { purchaser := "Bob", petType := "cat", store := PyVal.int 1, purchaseId := "id-2" }]

/-- Case split on a purchase run: either the run ends before any delete call
with nothing written, or a delete call against the resolved pet was issued and
the run ends 500 with nothing written when the removal is unconfirmed, 201
when it is confirmed. -/
theorem post_purchase_split (req : PurchaseRequest) (env : Env) (rand : Nat) (uuid : String) :
    ((post_purchase req env rand uuid).deleteCall = Option.none ∧
     (post_purchase req env rand uuid).ledgerWrites = []) ∨
    (∃ r : FoundPet,
      (post_purchase req env rand uuid).deleteCall =
        Option.some (r.pet_type_id, r.pet.name, r.store_url) ∧
      ((delete_pet_from_store r.pet_type_id r.pet.name (env.storeAt r.store_url) = false ∧
        (post_purchase req env rand uuid).status = 500 ∧
        (post_purchase req env rand uuid).ledgerWrites = []) ∨
       (delete_pet_from_store r.pet_type_id r.pet.name (env.storeAt r.store_url) = true ∧
        (post_purchase req env rand uuid).status = 201 ∧
        (post_purchase req env rand uuid).ledgerWrites ≠ []))) := by
  unfold post_purchase
  split
  · exact Or.inl ⟨rfl, rfl⟩
  · split
    · exact Or.inl ⟨rfl, rfl⟩
    · split
      · dsimp only
        split
        · exact Or.inl ⟨rfl, rfl⟩
        · split
          · exact Or.inl ⟨rfl, rfl⟩
          · split
            · exact Or.inl ⟨rfl, rfl⟩
            · split
              · exact Or.inl ⟨rfl, rfl⟩
              · split
                · exact Or.inl ⟨rfl, rfl⟩
                · rename_i result hfind
                  cases hdel : delete_pet_from_store result.pet_type_id result.pet.name
                      (env.storeAt result.store_url) with
                  | false =>
                      refine Or.inr ⟨result, ?_, Or.inl ⟨hdel, ?_, ?_⟩⟩ <;> simp [hdel]
                  | true =>
                      refine Or.inr ⟨result, ?_, Or.inr ⟨hdel, ?_, ?_⟩⟩ <;> simp [hdel]
      · exact Or.inl ⟨rfl, rfl⟩

/-- C1: if the removal call issued during a purchase run does not confirm
success, the run returns 500 and writes nothing to the ledger; conversely a
ledger write only ever happens after a removal call that confirmed success. -/
theorem c1_removal_gates_ledger (req : PurchaseRequest) (env : Env) (rand : Nat) (uuid : String) :
    (∀ ptid name surl,
        (post_purchase req env rand uuid).deleteCall = Option.some (ptid, name, surl) →
        delete_pet_from_store ptid name (env.storeAt surl) = false →
        (post_purchase req env rand uuid).status = 500 ∧
        (post_purchase req env rand uuid).ledgerWrites = []) ∧
    ((post_purchase req env rand uuid).ledgerWrites ≠ [] →
        ∃ ptid name surl,
          (post_purchase req env rand uuid).deleteCall = Option.some (ptid, name, surl) ∧
          delete_pet_from_store ptid name (env.storeAt surl) = true) := by
  rcases post_purchase_split req env rand uuid with ⟨hdc, hlw⟩ | ⟨r, hdc, hcase⟩
  · constructor
    · intro ptid name surl hd _
      rw [hdc] at hd
      exact Option.noConfusion hd
    · intro hw
      exact absurd hlw hw
  · rcases hcase with ⟨hfail, hst, hlw⟩ | ⟨hok, hst, hlw⟩
    · constructor
      · intro ptid name surl _ _
        exact ⟨hst, hlw⟩
      · intro hw
        exact absurd hlw hw
    · constructor
      · intro ptid name surl hd hdf
        have h := Option.some.inj (hdc.symm.trans hd)
        simp only [Prod.mk.injEq] at h
        rw [← h.1, ← h.2.1, ← h.2.2] at hdf
        rw [hok] at hdf
        simp at hdf
      · intro _
        exact ⟨r.pet_type_id, r.pet.name, r.store_url, hdc, hok⟩

/-- Witness for C1: against a store whose delete call answers 404, the run
reaches the removal step, returns 500 and writes nothing. -/
theorem c1_removal_gates_ledger_witness :
    (post_purchase { is_json := true, body := Option.some wBody } wEnvDeleteFails 0 "uid-0").status
        = 500 ∧
    (post_purchase { is_json := true, body := Option.some wBody } wEnvDeleteFails 0 "uid-0").ledgerWrites
        = [] :=
  (c1_removal_gates_ledger { is_json := true, body := Option.some wBody } wEnvDeleteFails 0
      "uid-0").1 "t1" "Rex" 1 (by decide) (by decide)

/-- C9: a `POST /purchases` request whose content type is not JSON is answered
415 with the media-type message, before the body is read and with no side
effect. -/
theorem c9_non_json_415 (req : PurchaseRequest) (env : Env) (rand : Nat) (uuid : String)
    (h : req.is_json = false) :
    post_purchase req env rand uuid = replyErr 415 "Expected application/json media type" := by
  simp [post_purchase, h]

/-- Witness for C9 at a concrete non-JSON request. -/
theorem c9_non_json_415_witness :
    post_purchase { is_json := false, body := Option.none } wEnv 0 "uid-9" =
      replyErr 415 "Expected application/json media type" :=
  c9_non_json_415 { is_json := false, body := Option.none } wEnv 0 "uid-9" rfl

/-- C7: a ledger query whose `OwnerPC` header is absent or differs from the
shared secret is answered 401 with no query built and no datastore read,
whatever filters were supplied; only the exact secret string passes. -/
theorem c7_ledger_auth (header : Option String) (args : List (String × String))
    (ledger : List Transaction) :
    (header ≠ Option.some SECRET →
        get_transactions header args ledger =
          { status := 401, queried := Option.none, body := Option.none }) ∧
    ((get_transactions header args ledger).status ≠ 401 → header = Option.some SECRET) := by
  constructor
  · intro h
    simp [get_transactions, h]
  · intro h
    by_contra hne
    apply h
    simp [get_transactions, hne]

/-- Witness for C7: a header differing only in case from the secret is
rejected with no datastore read. -/
theorem c7_ledger_auth_witness :
    Option.some "lovespetsl2m3n4" ≠ Option.some SECRET ∧
    get_transactions (Option.some "lovespetsl2m3n4") [("store", "1")] [] =
      { status := 401, queried := Option.none, body := Option.none } :=
  ⟨by decide, (c7_ledger_auth (Option.some "lovespetsl2m3n4") [("store", "1")] []).1 (by decide)⟩

/-- Runs of the resolver with neither selector truthy draw directly from the
pooled candidate list. -/
theorem find_available_pet_case3 (pet_type : String) (env : Env) (rand : Nat) :
    find_available_pet pet_type PyVal.none PyVal.none env rand =
      (case3Candidates pet_type env)[rand % (case3Candidates pet_type env).length]? := by
  simp [find_available_pet, pyTruthy]

/-- Membership in one store's pool contribution pins down every tag field. -/
theorem mem_collectCandidates {pet_type : String} {sid : Nat} {senv : StoreEnv} {f : FoundPet}
    (h : f ∈ collectCandidates pet_type sid senv) :
    f.store = PyVal.int sid ∧ f.store_url = sid ∧
    get_pet_type_id pet_type senv = Option.some f.pet_type_id ∧
    f.pet ∈ get_pets_of_type f.pet_type_id senv := by
  unfold collectCandidates at h
  split at h
  · simp at h
  · rename_i ptid hpt
    split at h
    · simp at h
    · rcases List.mem_map.mp h with ⟨p, hp, rfl⟩
      exact ⟨rfl, rfl, hpt, hp⟩

/-- Over a well-formed store the code's pool contribution coincides with the
spec-worded one (the code's extra guard against a falsy type id never
fires). -/
theorem collect_eq_spec {pet_type : String} {sid : Nat} {senv : StoreEnv} (hwf : senv.wf) :
    collectCandidates pet_type sid senv = specStoreCandidates pet_type sid senv := by
  cases hpt : senv.petTypes with
  | none => simp [collectCandidates, specStoreCandidates, get_pet_type_id, hpt]
  | some types =>
      cases hf : types.find? (fun t => pyLower t.type == pyLower pet_type) with
      | none => simp [collectCandidates, specStoreCandidates, get_pet_type_id, hpt, hf]
      | some t =>
          have hid : t.id ≠ "" := hwf types hpt t (List.mem_of_find?_eq_some hf)
          simp [collectCandidates, specStoreCandidates, get_pet_type_id, hpt, hf, hid]

/-- Store well-formedness from an explicit type listing. -/
theorem wf_of_petTypes {s : StoreEnv} {ts : List PetType} (h : s.petTypes = Option.some ts)
    (hts : ∀ t ∈ ts, t.id ≠ "") : s.wf := by
  intro l hl t ht
  rw [h] at hl
  cases Option.some.inj hl
  exact hts t ht

/-- C2: with neither store nor pet name given, the resolver's candidate pool
is the spec's pooled set (every configured store queried, matching pets
concatenated and tagged with their store), the draw is a uniform pick over
that pool (empty pool gives NotFound, every index selects, every candidate is
reachable), and every returned candidate is listed by the store it is tagged
with. -/
theorem c2_pooled_random_policy (pet_type : String) (env : Env) (hwf : Env.wf env) :
    case3Candidates pet_type env = specPool pet_type env ∧
    (case3Candidates pet_type env = [] →
        ∀ rand, find_available_pet pet_type PyVal.none PyVal.none env rand = Option.none) ∧
    (∀ rand, find_available_pet pet_type PyVal.none PyVal.none env rand =
        (case3Candidates pet_type env)[rand % (case3Candidates pet_type env).length]?) ∧
    (∀ f ∈ case3Candidates pet_type env, ∃ rand,
        find_available_pet pet_type PyVal.none PyVal.none env rand = Option.some f) ∧
    (∀ rand f, find_available_pet pet_type PyVal.none PyVal.none env rand = Option.some f →
        (f.store_url = 1 ∨ f.store_url = 2) ∧ f.store = PyVal.int f.store_url ∧
        get_pet_type_id pet_type (env.storeAt f.store_url) = Option.some f.pet_type_id ∧
        f.pet ∈ get_pets_of_type f.pet_type_id (env.storeAt f.store_url)) := by
  obtain ⟨hwf1, hwf2⟩ := hwf
  refine ⟨?_, ?_, ?_, ?_, ?_⟩
  · unfold case3Candidates specPool
    rw [collect_eq_spec hwf1, collect_eq_spec hwf2]
  · intro hnil rand
    rw [find_available_pet_case3, hnil]
    simp
  · intro rand
    exact find_available_pet_case3 pet_type env rand
  · intro f hf
    rcases List.mem_iff_getElem.mp hf with ⟨i, hi, hget⟩
    refine ⟨i, ?_⟩
    rw [find_available_pet_case3, Nat.mod_eq_of_lt hi, List.getElem?_eq_getElem hi, hget]
  · intro rand f hfind
    rw [find_available_pet_case3] at hfind
    obtain ⟨hlt, hval⟩ := List.getElem?_eq_some_iff.mp hfind
    have hmem : f ∈ case3Candidates pet_type env := hval ▸ List.getElem_mem hlt
    rcases List.mem_append.mp hmem with h | h
    · obtain ⟨hs, hsu, hid, hpet⟩ := mem_collectCandidates h
      rw [hsu]
      exact ⟨Or.inl rfl, hsu ▸ hs, hid, hpet⟩
    · obtain ⟨hs, hsu, hid, hpet⟩ := mem_collectCandidates h
      rw [hsu]
      exact ⟨Or.inr rfl, hsu ▸ hs, hid, hpet⟩

/-- Witness for C2 over the concrete two-store environment. -/
theorem c2_pooled_random_policy_witness :
    Env.wf wEnv ∧
    case3Candidates "dog" wEnv = specPool "dog" wEnv ∧
    find_available_pet "dog" PyVal.none PyVal.none wEnv 0 =
      (case3Candidates "dog" wEnv)[0 % (case3Candidates "dog" wEnv).length]? := by
  have hwf : Env.wf wEnv :=
    ⟨wf_of_petTypes rfl (by decide), wf_of_petTypes rfl (by decide)⟩
  exact ⟨hwf, (c2_pooled_random_policy "dog" wEnv hwf).1,
    (c2_pooled_random_policy "dog" wEnv hwf).2.2.1 0⟩

/-- Runs of the resolver with a truthy store and a truthy pet name follow the
exact-name branch, independent of the random draw. -/
theorem find_available_pet_case1 (pet_type s : String) (store : PyVal) (env : Env) (rand : Nat)
    (hst : pyTruthy store = true) (hs : s ≠ "") :
    find_available_pet pet_type store (PyVal.str s) env rand =
      match storeUrlsGet env store with
      | Option.none => Option.none
      | Option.some (sid, senv) =>
          match get_pet_type_id pet_type senv with
          | Option.none => Option.none
          | Option.some ptid =>
              if ptid == "" then Option.none
              else
                ((get_pets_of_type ptid senv).find? (fun p => pyEqStr p.name (PyVal.str s))).map
                  (fun p => { pet := p, store := store, pet_type_id := ptid, store_url := sid }) := by
  have h1 : pyTruthy (PyVal.str s) = true := by simp [pyTruthy, hs]
  simp [find_available_pet, hst, h1]

/-- C3: with a truthy store selector and a non-empty pet name, resolution is
deterministic (the random draw plays no part), the pet-type name is matched
case-insensitively in the named store's type list, the pet name is matched
case-sensitively and exactly in that type's pet list, and NotFound results
when the store selector, the type name, or the exact pet name does not
resolve. -/
theorem c3_exact_name_policy (pet_type s : String) (store : PyVal) (env : Env)
    (hst : pyTruthy store = true) (hs : s ≠ "") :
    (∀ rand rand', find_available_pet pet_type store (PyVal.str s) env rand =
        find_available_pet pet_type store (PyVal.str s) env rand') ∧
    (storeUrlsGet env store = Option.none →
        ∀ rand, find_available_pet pet_type store (PyVal.str s) env rand = Option.none) ∧
    (∀ sid senv, storeUrlsGet env store = Option.some (sid, senv) →
        ∀ rand, find_available_pet pet_type store (PyVal.str s) env rand =
          match get_pet_type_id pet_type senv with
          | Option.none => Option.none
          | Option.some ptid =>
              if ptid == "" then Option.none
              else
                ((get_pets_of_type ptid senv).find? (fun p => p.name == s)).map
                  (fun p => { pet := p, store := store, pet_type_id := ptid, store_url := sid })) ∧
    (∀ (senv : StoreEnv) l ptid, senv.petTypes = Option.some l →
        get_pet_type_id pet_type senv = Option.some ptid →
        ∃ t ∈ l, t.id = ptid ∧ pyLower t.type = pyLower pet_type) := by
  refine ⟨?_, ?_, ?_, ?_⟩
  · intro rand rand'
    rw [find_available_pet_case1 pet_type s store env rand hst hs,
        find_available_pet_case1 pet_type s store env rand' hst hs]
  · intro h rand
    rw [find_available_pet_case1 pet_type s store env rand hst hs, h]
  · intro sid senv h rand
    rw [find_available_pet_case1 pet_type s store env rand hst hs, h]
    rfl
  · intro senv l ptid hl hid
    unfold get_pet_type_id at hid
    rw [hl] at hid
    obtain ⟨t, hft, rfl⟩ := Option.map_eq_some'.mp hid
    refine ⟨t, List.mem_of_find?_eq_some hft, rfl, ?_⟩
    have := List.find?_some hft
    exact (beq_iff_eq.mp this)

/-- Witness for C3: in the concrete environment, a differently-cased type
name still resolves while the pet name is matched exactly. -/
theorem c3_exact_name_policy_witness :
    pyTruthy (PyVal.int 1) = true ∧ ("Rex" : String) ≠ "" ∧
    find_available_pet "Dog" (PyVal.int 1) (PyVal.str "Rex") wEnv 0 =
      Option.some { pet := { name := "Rex", birthdate := "NA", picture := "NA" },
                    store := PyVal.int 1, pet_type_id := "t1", store_url := 1 } := by
  refine ⟨by decide, by decide, ?_⟩
  have h := (c3_exact_name_policy "Dog" "Rex" (PyVal.int 1) wEnv (by decide) (by decide)).2.2.1
    1 wEnv.store1 rfl 0
  rw [h]
  decide

/-- C6: an unreachable store is absorbed during resolution: a failed type
listing resolves no type, a failed pet listing lists no pets, and with store 1
down the any-store pool is exactly store 2's contribution, from which a pet is
still returned whenever it is non-empty — never an error. -/
theorem c6_unreachable_absorbed (pet_type : String) (env : Env) :
    (∀ senv : StoreEnv, senv.petTypes = Option.none →
        get_pet_type_id pet_type senv = Option.none) ∧
    (∀ (senv : StoreEnv) ptid, senv.pets ptid = Option.none →
        get_pets_of_type ptid senv = []) ∧
    (env.store1.petTypes = Option.none →
        case3Candidates pet_type env = collectCandidates pet_type 2 env.store2 ∧
        (∀ rand, case3Candidates pet_type env ≠ [] →
            ∃ f, find_available_pet pet_type PyVal.none PyVal.none env rand = Option.some f ∧
              f.store_url = 2)) ∧
    (env.store2.petTypes = Option.none →
        case3Candidates pet_type env = collectCandidates pet_type 1 env.store1) := by
  refine ⟨?_, ?_, ?_, ?_⟩
  · intro senv h
    simp [get_pet_type_id, h]
  · intro senv ptid h
    simp [get_pets_of_type, h]
  · intro h1
    have hc : collectCandidates pet_type 1 env.store1 = [] := by
      simp [collectCandidates, get_pet_type_id, h1]
    have hpool : case3Candidates pet_type env = collectCandidates pet_type 2 env.store2 := by
      simp [case3Candidates, hc]
    refine ⟨hpool, ?_⟩
    intro rand hne
    rw [find_available_pet_case3]
    have hlen : 0 < (case3Candidates pet_type env).length := List.length_pos.mpr hne
    have hlt : rand % (case3Candidates pet_type env).length <
        (case3Candidates pet_type env).length := Nat.mod_lt rand hlen
    refine ⟨_, List.getElem?_eq_getElem hlt, ?_⟩
    have hmem := List.getElem_mem hlt
    rcases List.mem_append.mp hmem with hmem1 | hmem2
    · rw [hc] at hmem1
      exact absurd hmem1 (List.not_mem_nil _)
    · exact (mem_collectCandidates hmem2).2.1
  · intro h2
    have hc : collectCandidates pet_type 2 env.store2 = [] := by
      simp [collectCandidates, get_pet_type_id, h2]
    simp [case3Candidates, hc]

/-- Witness for C6: with store 1 unreachable the resolver still returns a
store-2 pet. -/
theorem c6_unreachable_absorbed_witness :
    wEnvStore1Down.store1.petTypes = Option.none ∧
    case3Candidates "dog" wEnvStore1Down ≠ [] ∧
    (∃ f, find_available_pet "dog" PyVal.none PyVal.none wEnvStore1Down 0 = Option.some f ∧
        f.store_url = 2) := by
  refine ⟨rfl, by decide, ?_⟩
  exact ((c6_unreachable_absorbed "dog" wEnvStore1Down).2.2.1 rfl).2 0 (by decide)

/-- Shape characterization of the purchaser and pet-type field check. -/
theorem strFieldOk_iff (o : Option PyVal) :
    strFieldOk o = true ↔ ∃ s, o = Option.some (PyVal.str s) := by
  cases o with
  | none => simp [strFieldOk]
  | some v => cases v <;> simp [strFieldOk]

/-- Computation of the validation predicate once the purchaser and pet-type
fields are strings. -/
theorem validBody_gates (data : Body) (p0 t0 : String)
    (hp0 : data.purchaser = Option.some (PyVal.str p0))
    (ht0 : data.petType = Option.some (PyVal.str t0)) :
    validBody data =
      (!(data.store.getD PyVal.none != PyVal.none &&
          !isInstInt (data.store.getD PyVal.none)) &&
       !(data.petName.getD PyVal.none != PyVal.none &&
          !isInstStr (data.petName.getD PyVal.none)) &&
       !(data.store.getD PyVal.none != PyVal.none &&
          !(pyEqInt (data.store.getD PyVal.none) 1 || pyEqInt (data.store.getD PyVal.none) 2)) &&
       !(pyTruthy (data.petName.getD PyVal.none) &&
          data.store.getD PyVal.none == PyVal.none)) := by
  simp [validBody, hp0, ht0, strFieldOk]

/-- Validation boundary of `post_purchase`: a failing validation predicate
yields the malformed-data reply with no resolver call, a passing one always
reaches the resolver and can no longer produce the malformed-data message. -/
theorem post_purchase_gates (req : PurchaseRequest) (env : Env) (rand : Nat) (uuid : String)
    (data : Body) (hj : req.is_json = true) (hb : req.body = Option.some data) :
    (validBody data = false → post_purchase req env rand uuid = replyErr 400 "Malformed data") ∧
    (validBody data = true → (post_purchase req env rand uuid).resolverCalled = true ∧
        (post_purchase req env rand uuid).errMsg ≠ Option.some "Malformed data") := by
  by_cases hok : strFieldOk data.purchaser = true ∧ strFieldOk data.petType = true
  · obtain ⟨p0, hp0⟩ := (strFieldOk_iff data.purchaser).mp hok.1
    obtain ⟨t0, ht0⟩ := (strFieldOk_iff data.petType).mp hok.2
    unfold post_purchase
    rw [hj, hb]
    rw [if_neg (by simp : ¬((!true) = true))]
    dsimp only
    rw [hp0, ht0]
    dsimp only
    rw [validBody_gates data p0 t0 hp0 ht0]
    split
    · rename_i hc
      constructor
      · intro _
        rfl
      · intro hv
        rw [hc] at hv
        simp at hv
    · rename_i hc
      rw [Bool.not_eq_true] at hc
      split
      · rename_i hc2
        constructor
        · intro _
          rfl
        · intro hv
          rw [hc2] at hv
          simp at hv
      · rename_i hc2
        rw [Bool.not_eq_true] at hc2
        split
        · rename_i hc3
          constructor
          · intro _
            rfl
          · intro hv
            rw [hc3] at hv
            simp at hv
        · rename_i hc3
          rw [Bool.not_eq_true] at hc3
          split
          · rename_i hc4
            constructor
            · intro _
              rfl
            · intro hv
              rw [hc4] at hv
              simp at hv
          · rename_i hc4
            rw [Bool.not_eq_true] at hc4
            constructor
            · intro hv
              rw [hc, hc2, hc3, hc4] at hv
              simp at hv
            · intro _
              split
              · exact ⟨rfl, by simp⟩
              · split
                · exact ⟨rfl, by simp⟩
                · exact ⟨rfl, by simp⟩
  · have hv : validBody data = false := by
      cases hpu : strFieldOk data.purchaser with
      | false => simp only [validBody, hpu, Bool.false_and, Bool.and_false]
      | true =>
          cases hpt : strFieldOk data.petType with
          | false => simp only [validBody, hpt, Bool.false_and, Bool.and_false]
          | true => exact absurd ⟨hpu, hpt⟩ hok
    have hpost : post_purchase req env rand uuid = replyErr 400 "Malformed data" := by
      unfold post_purchase
      rw [hj, hb]
      rw [if_neg (by simp : ¬((!true) = true))]
      dsimp only
      split
      · rename_i p0 t0 hp0 ht0
        exact absurd ⟨(strFieldOk_iff _).mpr ⟨p0, hp0⟩, (strFieldOk_iff _).mpr ⟨t0, ht0⟩⟩ hok
      · rfl
    exact ⟨fun _ => hpost, fun hvt => absurd (hv ▸ hvt) (by simp)⟩

/-- Counterexample to C4: a purchaser that is whitespace only — empty after
trimming — is not rejected; the purchase runs to completion, stores are
contacted, and a ledger record with the empty purchaser string is written. -/
theorem c4_counterexample_blank_purchaser :
    pyStrip "   " = "" ∧
    (post_purchase { is_json := true, body := Option.some wBodyBlankPurchaser } wEnv 0
        "uid-4").status = 201 ∧
    (post_purchase { is_json := true, body := Option.some wBodyBlankPurchaser } wEnv 0
        "uid-4").resolverCalled = true ∧
    (post_purchase { is_json := true, body := Option.some wBodyBlankPurchaser } wEnv 0
        "uid-4").ledgerWrites =
      [{ purchaser := "", petType := "dog", store := PyVal.int 1, purchaseId := "uid-4" }] := by
  decide

/-- C4 (amended): the only validation applied to the purchaser and pet-type
fields is presence with string shape; `validBody` (which never inspects the
trimmed content) is exactly the rejection boundary — when it fails the request
is answered 400 before any resolver call or side effect, and when it passes
(emptiness after trimming included) resolution is always attempted. -/
theorem c4_shape_validation_only (req : PurchaseRequest) (env : Env) (rand : Nat) (uuid : String)
    (data : Body) (hj : req.is_json = true) (hb : req.body = Option.some data) :
    (validBody data = false →
        post_purchase req env rand uuid = replyErr 400 "Malformed data") ∧
    (validBody data = true → (post_purchase req env rand uuid).resolverCalled = true) := by
  have h := post_purchase_gates req env rand uuid data hj hb
  exact ⟨h.1, fun hv => (h.2 hv).1⟩

/-- Witness for the amended C4: the whitespace-only purchaser passes
validation and reaches the resolver. -/
theorem c4_shape_validation_only_witness :
    validBody wBodyBlankPurchaser = true ∧
    (post_purchase { is_json := true, body := Option.some wBodyBlankPurchaser } wEnv 0
        "uid-4b").resolverCalled = true :=
  ⟨by decide,
   (c4_shape_validation_only { is_json := true, body := Option.some wBodyBlankPurchaser } wEnv 0
      "uid-4b" wBodyBlankPurchaser rfl rfl).2 (by decide)⟩

/-- Runs of the resolver with an empty-string pet name coincide with runs with
no pet name at all: the truthiness guards cannot tell them apart. -/
theorem find_available_pet_empty_name (pet_type : String) (store : PyVal) (env : Env)
    (rand : Nat) :
    find_available_pet pet_type store (PyVal.str "") env rand =
      find_available_pet pet_type store PyVal.none env rand := by
  simp [find_available_pet, pyTruthy]

/-- Counterexample to C5: a request carrying the pet-name key with the empty
string and no store is not rejected — resolution is attempted and the
purchase completes. -/
theorem c5_counterexample_empty_pet_name :
    (post_purchase { is_json := true, body := Option.some wBodyEmptyPetName } wEnv 0
        "uid-5").resolverCalled = true ∧
    (post_purchase { is_json := true, body := Option.some wBodyEmptyPetName } wEnv 0
        "uid-5").status = 201 ∧
    (post_purchase { is_json := true, body := Option.some wBodyEmptyPetName } wEnv 0
        "uid-5").ledgerWrites ≠ [] := by
  decide

/-- C5 (amended): a present, non-empty pet name without a store selector is
rejected 400 before any resolver call; a present but empty pet name is
instead treated exactly as an absent one, so the request proceeds. -/
theorem c5_pet_name_requires_store (req : PurchaseRequest) (env : Env) (rand : Nat)
    (uuid : String) (data : Body) (hj : req.is_json = true) (hb : req.body = Option.some data)
    (hst : data.store.getD PyVal.none = PyVal.none) :
    (∀ s, data.petName = Option.some (PyVal.str s) → s ≠ "" →
        post_purchase req env rand uuid = replyErr 400 "Malformed data") ∧
    (data.petName = Option.some (PyVal.str "") →
        post_purchase req env rand uuid =
          post_purchase
            { is_json := req.is_json,
              body := Option.some { purchaser := data.purchaser, petType := data.petType,
                                    store := data.store, petName := Option.none } }
            env rand uuid) := by
  constructor
  · intro s hpn hs
    refine (post_purchase_gates req env rand uuid data hj hb).1 ?_
    have htr : pyTruthy (data.petName.getD PyVal.none) = true := by
      rw [hpn]
      simp [pyTruthy, hs]
    have hbeq : (data.store.getD PyVal.none == PyVal.none) = true := by
      rw [hst]
      rfl
    simp only [validBody, htr, hbeq, Bool.true_and, Bool.and_true, Bool.not_true,
      Bool.and_false, Bool.false_and]
  · intro hpn
    obtain ⟨pu, pt, st2, pn⟩ := data
    simp only at hpn
    subst hpn
    unfold post_purchase
    rw [hj, hb]
    dsimp only
    rcases pu with _ | pv
    · rfl
    · rcases pv with _ | n | b | p0 | _
      · rfl
      · rfl
      · rfl
      · rcases pt with _ | tv
        · rfl
        · rcases tv with _ | n2 | b2 | t0 | _
          · rfl
          · rfl
          · rfl
          · dsimp only
            simp only [Option.getD_some, Option.getD_none]
            rw [find_available_pet_empty_name]
            rw [show (PyVal.str "" != PyVal.none && !isInstStr (PyVal.str "")) = false from rfl,
                show (PyVal.none != PyVal.none && !isInstStr PyVal.none) = false from rfl,
                show pyTruthy (PyVal.str "") = false from rfl,
                show pyTruthy PyVal.none = false from rfl]
          · rfl
      · rfl

/-- Witness for the amended C5: a non-empty pet name with no store is
rejected before resolution. -/
theorem c5_pet_name_requires_store_witness :
    post_purchase
        { is_json := true,
          body := Option.some { wBody with store := Option.none,
                                           petName := Option.some (PyVal.str "Rex") } }
        wEnv 0 "uid-5b" = replyErr 400 "Malformed data" :=
  (c5_pet_name_requires_store
      { is_json := true,
        body := Option.some { wBody with store := Option.none,
                                         petName := Option.some (PyVal.str "Rex") } }
      wEnv 0 "uid-5b"
      { wBody with store := Option.none, petName := Option.some (PyVal.str "Rex") }
      rfl rfl rfl).1 "Rex" rfl (by decide)

/-- C10: a store field holding the JSON boolean `true` passes validation (a
boolean satisfies the integer shape check and equals 1), the request reaches
resolution instead of being rejected as malformed, and resolution against the
boolean selector behaves exactly like store 1 (only the echoed selector in the
result differs). -/
theorem c10_boolean_store_accepted (req : PurchaseRequest) (env : Env) (rand : Nat)
    (uuid : String) (data : Body) (hj : req.is_json = true) (hb : req.body = Option.some data)
    (hpur : strFieldOk data.purchaser = true) (hpt : strFieldOk data.petType = true)
    (hstore : data.store = Option.some (PyVal.bool true)) (hpn : data.petName = Option.none) :
    isInstInt (PyVal.bool true) = true ∧
    pyEqInt (PyVal.bool true) 1 = true ∧
    validBody data = true ∧
    (post_purchase req env rand uuid).resolverCalled = true ∧
    (post_purchase req env rand uuid).errMsg ≠ Option.some "Malformed data" ∧
    storeUrlsGet env (PyVal.bool true) = Option.some (1, env.store1) ∧
    (∀ pt2 rand2, find_available_pet pt2 (PyVal.bool true) PyVal.none env rand2 =
        (find_available_pet pt2 (PyVal.int 1) PyVal.none env rand2).map
          (fun f => { f with store := PyVal.bool true })) := by
  obtain ⟨p0, hp0⟩ := (strFieldOk_iff data.purchaser).mp hpur
  obtain ⟨t0, ht0⟩ := (strFieldOk_iff data.petType).mp hpt
  have hv : validBody data = true := by
    rw [validBody_gates data p0 t0 hp0 ht0, hstore, hpn]
    rfl
  refine ⟨rfl, rfl, hv, ((post_purchase_gates req env rand uuid data hj hb).2 hv).1,
      ((post_purchase_gates req env rand uuid data hj hb).2 hv).2, rfl, ?_⟩
  intro pt2 rand2
  cases hid : get_pet_type_id pt2 env.store1 with
  | none =>
      simp [find_available_pet, pyTruthy, storeUrlsGet, pyEqInt, hid]
  | some ptid =>
      cases hz : ptid == "" with
      | true =>
          simp [find_available_pet, pyTruthy, storeUrlsGet, pyEqInt, hid, hz]
      | false =>
          simp [find_available_pet, pyTruthy, storeUrlsGet, pyEqInt, hid, hz, Option.map_map]
          rfl

/-- Witness for C10: the concrete boolean-store request reaches resolution
and resolves against store 1. -/
theorem c10_boolean_store_accepted_witness :
    validBody wBodyBoolStore = true ∧
    (post_purchase { is_json := true, body := Option.some wBodyBoolStore } wEnv 0
        "uid-10").resolverCalled = true ∧
    find_available_pet "dog" (PyVal.bool true) PyVal.none wEnv 0 =
      (find_available_pet "dog" (PyVal.int 1) PyVal.none wEnv 0).map
        (fun f => { f with store := PyVal.bool true }) := by
  have h := c10_boolean_store_accepted { is_json := true, body := Option.some wBodyBoolStore }
      wEnv 0 "uid-10" wBodyBoolStore rfl rfl rfl rfl rfl rfl
  exact ⟨h.2.2.1, h.2.2.2.1, h.2.2.2.2.2.2 "dog" 0⟩

/-- Bound of the built query at a recognized key: the parse of the key's
first query-string value. -/
theorem buildQuery_recognized (args : List (String × String)) (k : String)
    (hk : recognizedKeys.contains k = true) :
    buildQuery args k = (firstVal args k).map (queryValOf k) := by
  unfold buildQuery
  rw [if_pos hk]

/-- Head unfolding of the first-value lookup. -/
theorem firstVal_cons (a : String × String) (args : List (String × String)) (k : String) :
    firstVal (a :: args) k = if a.1 == k then Option.some a.2 else firstVal args k := by
  unfold firstVal
  cases h : (a.1 == k) with
  | true => simp [List.find?_cons, h]
  | false => simp [List.find?_cons, h]

/-- A query-string pair whose key differs from the looked-up key can be
removed without changing the first value found. -/
theorem firstVal_ignore_middle (pre post : List (String × String)) (k v k' : String)
    (hk : (k == k') = false) :
    firstVal (pre ++ (k, v) :: post) k' = firstVal (pre ++ post) k' := by
  induction pre with
  | nil => simp [firstVal_cons, hk]
  | cons a pre ih => simp [List.cons_append, firstVal_cons, ih]

/-- Commutation of lawful boolean equality. -/
theorem beq_comm_eq {α : Type} [BEq α] [LawfulBEq α] (a b : α) : (a == b) = (b == a) := by
  by_cases h : a = b
  · subst h
    rfl
  · rw [beq_eq_false_iff_ne.mpr h, beq_eq_false_iff_ne.mpr (Ne.symm h)]

/-- Per-key component of the Mongo match for a non-store key against a stored
string field: a plain equality check on the key's first value. -/
theorem match_qv_str (k : String) (hk : (k == "store") = false) (o : Option String)
    (w : String) :
    (match o.map (queryValOf k) with
     | Option.some qv => mongoEqVal qv (PyVal.str w)
     | Option.none => true) =
    (match o with
     | Option.some v => w == v
     | Option.none => true) := by
  cases o with
  | none => rfl
  | some v =>
      show mongoEqVal (queryValOf k v) (PyVal.str w) = (w == v)
      unfold queryValOf
      rw [if_neg (by simp [hk] : ¬((k == "store") = true))]
      show (v == w) = (w == v)
      exact beq_comm_eq v w

/-- Per-key component of the Mongo match for the store key: compared as an
integer when the value parses as one, as literal text otherwise. -/
theorem match_qv_store (o : Option String) (sv : PyVal) :
    (match o.map (queryValOf "store") with
     | Option.some qv => mongoEqVal qv sv
     | Option.none => true) =
    (match o with
     | Option.some v =>
         (match pyIntOfString v with
          | Option.some n => sv == PyVal.int n
          | Option.none => sv == PyVal.str v)
     | Option.none => true) := by
  cases o with
  | none => rfl
  | some v =>
      show mongoEqVal (queryValOf "store" v) sv =
        (match pyIntOfString v with
         | Option.some n => sv == PyVal.int n
         | Option.none => sv == PyVal.str v)
      unfold queryValOf
      rw [if_pos (show ("store" == "store") = true from rfl)]
      cases h5 : pyIntOfString v with
      | none =>
          cases sv with
          | str w =>
              apply Bool.eq_iff_iff.mpr
              simp only [mongoEqVal, beq_iff_eq, PyVal.str.injEq]
              exact eq_comm
          | none => rfl
          | int m => rfl
          | bool b => rfl
          | other => rfl
      | some n =>
          cases sv with
          | int m =>
              apply Bool.eq_iff_iff.mpr
              simp only [mongoEqVal, beq_iff_eq, PyVal.int.injEq]
              exact eq_comm
          | none => rfl
          | str w => rfl
          | bool b => rfl
          | other => rfl

/-- The Mongo match of the built query coincides with the spec-worded
filter. -/
theorem mongoMatch_eq_spec (args : List (String × String)) (t : Transaction) :
    mongoMatch (buildQuery args) t = specMatches args t := by
  unfold mongoMatch specMatches
  rw [show recognizedKeys = ["purchaser", "pet-type", "store", "purchase-id"] from rfl]
  simp only [List.all_cons, List.all_nil, Bool.and_true]
  rw [buildQuery_recognized args "purchaser" rfl, buildQuery_recognized args "pet-type" rfl,
      buildQuery_recognized args "store" rfl, buildQuery_recognized args "purchase-id" rfl]
  simp only [fieldVal]
  rw [match_qv_str "purchaser" rfl (firstVal args "purchaser") t.purchaser,
      match_qv_str "pet-type" rfl (firstVal args "pet-type") t.petType,
      match_qv_str "purchase-id" rfl (firstVal args "purchase-id") t.purchaseId,
      match_qv_store (firstVal args "store") t.store]
  simp [Bool.and_assoc]

/-- C8: an authorized ledger query returns exactly the transactions matching
every supplied recognized filter by plain equality (AND semantics, with the
store value compared as an integer when it parses as one and as text
otherwise), unrecognized filter keys are ignored, and no filters returns the
full ledger. -/
theorem c8_ledger_filter_semantics (header : Option String) (args : List (String × String))
    (ledger : List Transaction) (hh : header = Option.some SECRET) :
    (get_transactions header args ledger).status = 200 ∧
    (get_transactions header args ledger).body =
      Option.some (ledger.filter (fun t => specMatches args t)) ∧
    (args = [] → (get_transactions header args ledger).body = Option.some ledger) ∧
    (∀ pre post k v, recognizedKeys.contains k = false →
        get_transactions header (pre ++ (k, v) :: post) ledger =
          get_transactions header (pre ++ post) ledger) := by
  subst hh
  refine ⟨?_, ?_, ?_, ?_⟩
  · unfold get_transactions
    rw [if_neg (by simp)]
  · unfold get_transactions
    rw [if_neg (by simp)]
    have : ledger.filter (fun t => mongoMatch (buildQuery args) t) =
        ledger.filter (fun t => specMatches args t) :=
      List.filter_congr (fun t _ => mongoMatch_eq_spec args t)
    simp [this]
  · intro h
    subst h
    unfold get_transactions
    rw [if_neg (by simp)]
    have : ledger.filter (fun t => mongoMatch (buildQuery []) t) = ledger :=
      List.filter_eq_self.mpr (fun t _ => rfl)
    simp [this]
  · intro pre post k v hk
    have hbq : buildQuery (pre ++ (k, v) :: post) = buildQuery (pre ++ post) := by
      funext k'
      by_cases hk' : recognizedKeys.contains k' = true
      · rw [buildQuery_recognized _ _ hk', buildQuery_recognized _ _ hk']
        have hne : (k == k') = false := by
          cases hkk : (k == k') with
          | false => rfl
          | true =>
              rw [eq_of_beq hkk] at hk
              rw [hk] at hk'
              exact absurd hk' (by simp)
        rw [firstVal_ignore_middle pre post k v k' hne]
      · have hkf : recognizedKeys.contains k' = false := by
          cases hcc : recognizedKeys.contains k' with
          | false => rfl
          | true => exact absurd hcc hk'
        unfold buildQuery
        rw [if_neg (by rw [hkf]; simp), if_neg (by rw [hkf]; simp)]
    unfold get_transactions
    rw [hbq]

/-- Witness for C8 at a concrete ledger, with one recognized and one
unrecognized filter. -/
theorem c8_ledger_filter_semantics_witness :
    (get_transactions (Option.some SECRET) [("store", "2"), ("foo", "x")] wLedger).status
        = 200 ∧
    (get_transactions (Option.some SECRET) [("store", "2"), ("foo", "x")] wLedger).body =
      Option.some (wLedger.filter (fun t => specMatches [("store", "2"), ("foo", "x")] t)) := by
  have h := c8_ledger_filter_semantics (Option.some SECRET) [("store", "2"), ("foo", "x")]
      wLedger rfl
  exact ⟨h.1, h.2.1⟩

end PetOrder
